import Mathlib

/-!
Verification of the ADES PSV exporter (`thor/utils/ades.py`).

The two source functions `writeADESHeader` and `writeToADES` are embedded
shallowly: Python lists of header lines become `List String`, the pandas
DataFrame of observations becomes the `Observations` structure (a record of
optional and required columns), Python `raise ValueError` becomes
`Except.error`, and the file writes performed by `writeToADES` become an
explicit list of `FileOp` events (empty when the function raises before
touching the file).
-/

namespace ThorADES

/-- Python values that can be passed for the `observers` / `measurers`
arguments: either a non-list scalar (a string such as "J. Smith", or an
integer) or a list of such scalars.  The source checks only
`type(x) is list`; element types are never inspected. -/
inductive PyScalar where
  | str (s : String)
  | int (n : Int)
deriving DecidableEq, Repr

inductive PyVal where
  | scalar (v : PyScalar)
  | list (xs : List PyScalar)
deriving DecidableEq, Repr

/-- Python `"{}".format(x)` for the scalars used in header name lines. -/
def pyFormat : PyScalar → String
  | .str s => s
  | .int n => toString n

/-- `true` exactly when the Python value is a list (`type(x) is list`). -/
def PyVal.isPyList : PyVal → Bool
  | .list _ => true
  | .scalar _ => false

/-- Error taxonomy: both errors are `ValueError` in the source; the
constructors follow the spec's names for the two raise sites
(InvalidInput for the observers/measurers type check,
MissingRequiredField for the identification-column check). -/
inductive ADESError where
  | invalidInput (msg : String)
  | missingRequiredField (msg : String)
deriving DecidableEq, Repr

/-- Embedding of `writeADESHeader` (ades.py lines 12-111).  Each
`header += [...]` of the source becomes a list append; the two
`type(...) is not list` checks raise (return `Except.error`) at the same
program points as the source; on success every line gets a trailing
newline (line 110). -/
def writeADESHeader
    (observatory_code submitter telescope_design
     telescope_aperture telescope_detector : String)
    (observers measurers : PyVal)
    (observatory_name submitter_institution telescope_name
     comment : Option String) : Except ADESError (List String) :=
  let header := ["# version=2017"]
  let header := header ++ ["# observatory"]
  let header := header ++ ["! mpcCode " ++ observatory_code]
  let header := header ++
    (match observatory_name with
     | some n => ["! name " ++ n]
     | none => [])
  let header := header ++ ["# submitter"]
  let header := header ++ ["! name " ++ submitter]
  let header := header ++
    (match submitter_institution with
     | some i => ["! institution " ++ i]
     | none => [])
  let header := header ++ ["# telescope"]
  let header := header ++
    (match telescope_name with
     | some n => ["! name " ++ n]
     | none => [])
  -- source line 81: the aperture value is the hard-coded literal "8.4";
  -- the `telescope_aperture` argument is never used
  let header := header ++ ["! aperture 8.4"]
  let header := header ++ ["! design " ++ telescope_design]
  -- source line 83: `"! detector {}".format("CCD")`; the
  -- `telescope_detector` argument is never used
  let header := header ++ ["! detector CCD"]
  let header := header ++ ["# observers"]
  match observers with
  | .scalar _ => .error (.invalidInput "observers should be a list of strings.")
  | .list obs =>
    let header := header ++ obs.map (fun name => "! name " ++ pyFormat name)
    let header := header ++ ["# measurers"]
    match measurers with
    | .scalar _ => .error (.invalidInput "measurers should be a list of strings.")
    | .list meas =>
      let header := header ++ meas.map (fun name => "! name " ++ pyFormat name)
      let header := header ++
        (match comment with
         | some c => ["# comment", "! line " ++ c]
         | none => [])
      .ok (header.map (fun i => i ++ "\n"))

/-- A cell of the observation DataFrame: a missing value (`np.nan`), a
floating-point number (modelled as a rational), or a string. -/
inductive Cell where
  | nan
  | float (q : ℚ)
  | str (s : String)
deriving DecidableEq

/-- The observation table of `writeToADES`: required columns are plain
lists, optional columns (`permID`, `provID`, `trkSub`, `rmsRA`, `rmsDec`,
`rmsMag`, `remarks`) are `Option`s mirroring the
`"col" in observations.columns.values` presence checks.  `mjd` holds the
numeric observation times. -/
structure Observations where
  permID : Option (List Cell)
  provID : Option (List Cell)
  trkSub : Option (List Cell)
  mjd : List ℚ
  ra : List Cell
  dec : List Cell
  rmsRA : Option (List Cell)
  rmsDec : Option (List Cell)
  mag : List Cell
  rmsMag : Option (List Cell)
  band : List Cell
  stn : List Cell
  mode : List Cell
  astCat : List Cell
  remarks : Option (List Cell)

/-- `id_present` flag of ades.py lines 179-188. -/
def idPresent (o : Observations) : Bool :=
  o.permID.isSome || o.provID.isSome || o.trkSub.isSome

/-- A decimal digit character; the argument is reduced mod 10 so the
function is total. -/
def digitChar (d : Nat) : Char := Char.ofNat (48 + d % 10)

/-- The last `k` decimal digits of `m`, zero-padded to width `k`,
most significant first. -/
def fracDigits : Nat → Nat → List Char
  | 0, _ => []
  | k + 1, m => fracDigits k (m / 10) ++ [digitChar (m % 10)]

/-- Decimal digits of a natural number, most significant first, with an
explicit fuel bound (a number `m` has at most `m + 1` decimal digits), so
that the definition reduces by structural recursion. -/
def natToDecAux : Nat → Nat → List Char
  | 0, _ => []
  | fuel + 1, m =>
    if m < 10 then [digitChar m]
    else natToDecAux fuel (m / 10) ++ [digitChar (m % 10)]

/-- Decimal digit string of a natural number, most significant first. -/
def natToDec (m : Nat) : List Char := natToDecAux (m + 1) m

/-- `%.16f`-style fixed formatting (pandas `float_format` used at
ades.py line 243): round to 16 decimal places and print with exactly 16
digits after the decimal point. -/
def fixed16 (q : ℚ) : String :=
  let n : ℤ := round (q * 10 ^ 16)
  let sign : String := if n < 0 then "-" else ""
  let m : ℕ := n.natAbs
  sign ++ String.mk (natToDec (m / 10 ^ 16)) ++ "." ++
    String.mk (fracDigits 16 (m % 10 ^ 16))

/-- CSV quoting as done by `to_csv` with `sep="|"` (QUOTE_MINIMAL):
a field containing the separator, a quote or a line break is wrapped in
double quotes with inner quotes doubled. -/
def csvQuote (s : String) : String :=
  if s.data.any (fun c => c = '|' || c = '"' || c = '\n' || c = '\r') then
    "\"" ++ String.replace s "\"" "\"\"" ++ "\""
  else s

/-- `true` when the numpy column holding these cells has float dtype:
every value is a float or NaN (a column containing any string is object
dtype from the start). -/
def colIsFloat (col : List Cell) : Bool :=
  col.all (fun c => match c with | .str _ => false | _ => true)

/-- `true` when the column contains a missing value. -/
def colHasNan (col : List Cell) : Bool :=
  col.any (fun c => match c with | .nan => true | _ => false)

/-- Trailing-zero removal for the fractional digits. -/
def stripZeros (l : List Char) : List Char :=
  (l.reverse.dropWhile (fun c => c = '0')).reverse

/-- Modelled from the spec: Python `str()` of a float (behavior of the
external Python runtime, not repository code) prints the shortest decimal
representation; modelled for decimal-exact values by trimming trailing
zeros from the 16-decimal fixed form, keeping one zero when the value is
integral (Python prints e.g. "10.0").  Binary-float artifacts of the
shortest-round-trip algorithm are not modelled. -/
def pyFloatStr (q : ℚ) : String :=
  let n : ℤ := round (q * 10 ^ 16)
  let sign : String := if n < 0 then "-" else ""
  let m : ℕ := n.natAbs
  let fracs := stripZeros (fracDigits 16 (m % 10 ^ 16))
  sign ++ String.mk (natToDec (m / 10 ^ 16)) ++ "." ++
    String.mk (if fracs.isEmpty then ['0'] else fracs)

/-- Rendering of one cell of a given column, following
`replace(np.nan, " ", regex=True)` (ades.py 231-235) and
`to_csv(..., float_format=%.16f)` (ades.py 237-244).  The replace step
turns any column containing a missing value into object dtype, and
pandas applies `float_format` only to float-dtype columns: so floats in
a NaN-free float column are fixed-formatted with 16 decimals, while in
an object-dtype column (one holding a string, or one that contained a
missing value) floats are written via Python `str()` — here the `pyStr`
model of the runtime.  Missing values become a single space; strings
pass through CSV quoting. -/
def renderCell (pyStr : ℚ → String) (col : List Cell) (cell : Cell) : String :=
  if colIsFloat col && !colHasNan col then
    match cell with
    | .nan => " "
    | .float q => fixed16 q
    | .str s => csvQuote s
  else
    match cell with
    | .nan => " "
    | .float q => csvQuote (pyStr q)
    | .str s => csvQuote s

/-- Two-digit zero-padded field as produced by astropy's ISO formatting. -/
def pad2 (n : Nat) : List Char :=
  if n < 10 then ['0', digitChar n] else natToDec n

/-- Year field, zero-padded to four digits, with a leading minus sign for
negative years. -/
def pad4year (y : ℤ) : String :=
  (if y < 0 then "-" else "") ++
    String.mk (List.replicate (4 - (natToDec y.natAbs).length) '0' ++ natToDec y.natAbs)

/-- Modelled from the spec: proleptic-Gregorian calendar date of an MJD
day number (days-to-civil conversion used by the external astropy `Time`
class, which is not part of this repository).  Returns (year, month, day).
MJD 40587 is 1970-01-01. -/
def civilFromMJD (days : ℤ) : ℤ × Nat × Nat :=
  let z : ℤ := days - 40587 + 719468
  let era : ℤ := Int.fdiv z 146097
  let doe : Nat := (z - era * 146097).toNat
  let yoe : Nat := (doe - doe / 1460 + doe / 36524 - doe / 146096) / 365
  let y : ℤ := (yoe : ℤ) + era * 400
  let doy : Nat := doe - (365 * yoe + yoe / 4 - yoe / 100)
  let mp : Nat := (5 * doy + 2) / 153
  let d : Nat := doy - (153 * mp + 2) / 5 + 1
  let m : Nat := if mp < 10 then mp + 3 else mp - 9
  (if m ≤ 2 then y + 1 else y, m, d)

/-- Modelled from the spec: the `Time(...).utc.isot` string of the external
astropy library for a UTC MJD value — an ISO-8601 extended timestamp
`YYYY-MM-DDThh:mm:ss[.fff...]` whose fractional-seconds part has exactly
`prec` digits (absent when `prec = 0`).  Sub-second rounding is modelled
as truncation. -/
def astropyUtcIsot (prec : Nat) (mjd : ℚ) : String :=
  let days : ℤ := ⌊mjd⌋
  let ticks : ℕ := (⌊(mjd - (days : ℚ)) * (86400 * 10 ^ prec)⌋).toNat
  let subsec : Nat := ticks % 10 ^ prec
  let secs : Nat := ticks / 10 ^ prec
  let ymd := civilFromMJD days
  pad4year ymd.1 ++ "-" ++ String.mk (pad2 ymd.2.1) ++ "-" ++
    String.mk (pad2 ymd.2.2) ++ "T" ++
    String.mk (pad2 (secs / 3600)) ++ ":" ++
    String.mk (pad2 (secs / 60 % 60)) ++ ":" ++
    String.mk (pad2 (secs % 60)) ++
    (if prec = 0 then "" else "." ++ String.mk (fracDigits prec subsec))

/-- The named columns of the `ades` dict (ades.py lines 177-224) in
insertion order.  `utc_of scale m` models the scale conversion
`Time(m, scale=scale).utc` of the external astropy library. -/
def adesColumns (utc_of : String → ℚ → ℚ) (o : Observations)
    (mjd_scale : String) (seconds_precision : Nat) :
    List (String × List Cell) :=
  (match o.permID with | some c => [("permID", c)] | none => []) ++
  (match o.provID with | some c => [("provID", c)] | none => []) ++
  (match o.trkSub with | some c => [("trkSub", c)] | none => []) ++
  [("obsTime", o.mjd.map (fun m =>
    Cell.str (astropyUtcIsot seconds_precision (utc_of mjd_scale m) ++ "Z")))] ++
  [("ra", o.ra), ("dec", o.dec)] ++
  (match o.rmsRA with | some c => [("rmsRA", c)] | none => []) ++
  (match o.rmsDec with | some c => [("rmsDec", c)] | none => []) ++
  [("mag", o.mag)] ++
  (match o.rmsMag with | some c => [("rmsMag", c)] | none => []) ++
  [("band", o.band), ("stn", o.stn), ("mode", o.mode), ("astCat", o.astCat)] ++
  (match o.remarks with | some c => [("remarks", c)] | none => [])

/-- Cell `i` of a column (all columns of a DataFrame have equal length, so
the default is never reached on well-formed input). -/
def cellAt (col : List Cell) (i : Nat) : Cell := col.getD i Cell.nan

/-- One data line of the PSV body: cells of row `i` rendered and joined
by the `|` separator, newline-terminated. -/
def rowLine (pyStr : ℚ → String) (cols : List (String × List Cell)) (i : Nat) : String :=
  String.intercalate "|" (cols.map (fun c => renderCell pyStr c.2 (cellAt c.2 i))) ++ "\n"

/-- Number of data rows (the common column length). -/
def nRows (cols : List (String × List Cell)) : Nat :=
  match cols with
  | [] => 0
  | c :: _ => c.2.length

/-- The full CSV body appended by `to_csv` (ades.py lines 237-244). -/
def csvString (pyStr : ℚ → String) (cols : List (String × List Cell)) : String :=
  String.join ((List.range (nRows cols)).map (rowLine pyStr cols))

/-- File-system events performed by `writeToADES`:
`create` is `open(file_out, "w")` plus the writes inside the `with` block,
`append` is the `to_csv(..., mode="a")` call. -/
inductive FileOp where
  | create (path content : String)
  | append (path content : String)
deriving DecidableEq

/-- Embedding of `writeToADES` (ades.py lines 113-245).  The result pairs
the list of file operations actually performed with the outcome; both
`raise` sites return an empty operation list because they occur before
`open(file_out, "w")` at line 227. -/
def writeToADES (utc_of : String → ℚ → ℚ) (pyStr : ℚ → String)
    (observations : Observations)
    (file_out : String) (mjd_scale : String) (seconds_precision : Nat)
    (observatory_code submitter telescope_design telescope_aperture
     telescope_detector : String)
    (observers measurers : PyVal) (comment : Option String) :
    List FileOp × Except ADESError Unit :=
  match writeADESHeader observatory_code submitter telescope_design
      telescope_aperture telescope_detector observers measurers
      none none none comment with
  | .error e => ([], .error e)
  | .ok header =>
    if idPresent observations then
      let cols := adesColumns utc_of observations mjd_scale seconds_precision
      let col_header := String.intercalate "|" (cols.map Prod.fst) ++ "\n"
      ([.create file_out (String.join header ++ col_header),
        .append file_out (csvString pyStr cols)], .ok ())
    else
      ([], .error (.missingRequiredField
        "At least one of permID, provID, or trkSub should\nbe present in observations."))

/-! ### Helper lemmas -/

/-- The header line list (before newline termination) produced on the
success path of `writeADESHeader`. -/
def headerCore (observatory_code submitter telescope_design : String)
    (obs meas : List PyScalar)
    (observatory_name submitter_institution telescope_name
     comment : Option String) : List String :=
  ["# version=2017", "# observatory", "! mpcCode " ++ observatory_code] ++
  (match observatory_name with | some n => ["! name " ++ n] | none => []) ++
  ["# submitter", "! name " ++ submitter] ++
  (match submitter_institution with | some i => ["! institution " ++ i] | none => []) ++
  ["# telescope"] ++
  (match telescope_name with | some n => ["! name " ++ n] | none => []) ++
  ["! aperture 8.4", "! design " ++ telescope_design, "! detector CCD", "# observers"] ++
  obs.map (fun name => "! name " ++ pyFormat name) ++
  ["# measurers"] ++
  meas.map (fun name => "! name " ++ pyFormat name) ++
  (match comment with | some c => ["# comment", "! line " ++ c] | none => [])

lemma writeADESHeader_ok (oc sub td ta tdet : String) (obs meas : List PyScalar)
    (on1 si tn com : Option String) :
    writeADESHeader oc sub td ta tdet (.list obs) (.list meas) on1 si tn com =
      .ok ((headerCore oc sub td obs meas on1 si tn com).map (fun i => i ++ "\n")) := by
  simp [writeADESHeader, headerCore]

lemma strData_append (a b : String) : (a ++ b).data = a.data ++ b.data := by
  cases a; cases b; rfl

lemma strExt {a b : String} (h : a.data = b.data) : a = b := by
  cases a; cases b; exact congrArg String.mk h

lemma head_append (a b : String) (c : Char) (h : a.data.head? = some c) :
    (a ++ b).data.head? = some c := by
  rw [strData_append]
  cases ha : a.data with
  | nil => rw [ha] at h; simp at h
  | cons x xs => rw [ha] at h; simpa using h

lemma ne_of_head (s t : String) (c1 c2 : Char)
    (h1 : s.data.head? = some c1) (h2 : t.data.head? = some c2) (hne : c1 ≠ c2) :
    s ≠ t := by
  intro he
  subst he
  rw [h1] at h2
  exact hne (by simpa using h2)

/-- The six section-marker lines a header line can be. -/
def isSectionMarker (l : String) : Bool :=
  l == "# observatory\n" || l == "# submitter\n" || l == "# telescope\n" ||
  l == "# observers\n" || l == "# measurers\n" || l == "# comment\n"

lemma bang_not_marker (s : String) (h : s.data.head? = some '!') :
    isSectionMarker s = false := by
  have n1 : s ≠ "# observatory\n" := ne_of_head s _ '!' '#' h (by decide) (by decide)
  have n2 : s ≠ "# submitter\n" := ne_of_head s _ '!' '#' h (by decide) (by decide)
  have n3 : s ≠ "# telescope\n" := ne_of_head s _ '!' '#' h (by decide) (by decide)
  have n4 : s ≠ "# observers\n" := ne_of_head s _ '!' '#' h (by decide) (by decide)
  have n5 : s ≠ "# measurers\n" := ne_of_head s _ '!' '#' h (by decide) (by decide)
  have n6 : s ≠ "# comment\n" := ne_of_head s _ '!' '#' h (by decide) (by decide)
  simp [isSectionMarker, n1, n2, n3, n4, n5, n6]

lemma bangPre_not_marker (pre x : String) (h : pre.data.head? = some '!') :
    isSectionMarker ((pre ++ x) ++ "\n") = false :=
  bang_not_marker _ (head_append _ _ _ (head_append _ _ _ h))

lemma filter_map_comm {α β : Type} (l : List α) (f : α → β) (p : β → Bool) :
    (l.map f).filter p = (l.filter (fun a => p (f a))).map f := by
  induction l with
  | nil => rfl
  | cons a l ih =>
    simp only [List.map_cons, List.filter_cons]
    cases h : p (f a) <;> simp [h, ih]

lemma filter_false_of {α : Type} (l : List α) (p : α → Bool)
    (h : ∀ a ∈ l, p a = false) : l.filter p = [] := by
  induction l with
  | nil => rfl
  | cons a l ih =>
    simp only [List.filter_cons, h a (by simp)]
    exact ih (fun x hx => h x (by simp [hx]))

/-- Occurrences of section markers among the header lines, computed for
the pre-newline line list. -/
lemma filter_headerCore (oc sub td : String) (obs meas : List PyScalar)
    (on1 si tn com : Option String) :
    (headerCore oc sub td obs meas on1 si tn com).filter
        (fun a => isSectionMarker (a ++ "\n")) =
      ["# observatory", "# submitter", "# telescope", "# observers", "# measurers"] ++
        (match com with | some _ => ["# comment"] | none => []) := by
  have b1 : ∀ x : String, isSectionMarker (("! mpcCode " ++ x) ++ "\n") = false :=
    fun x => bangPre_not_marker "! mpcCode " x (by decide)
  have b2 : ∀ x : String, isSectionMarker (("! name " ++ x) ++ "\n") = false :=
    fun x => bangPre_not_marker "! name " x (by decide)
  have b3 : ∀ x : String, isSectionMarker (("! institution " ++ x) ++ "\n") = false :=
    fun x => bangPre_not_marker "! institution " x (by decide)
  have b4 : ∀ x : String, isSectionMarker (("! design " ++ x) ++ "\n") = false :=
    fun x => bangPre_not_marker "! design " x (by decide)
  have b5 : ∀ x : String, isSectionMarker (("! line " ++ x) ++ "\n") = false :=
    fun x => bangPre_not_marker "! line " x (by decide)
  have hobs : (obs.map (fun name => "! name " ++ pyFormat name)).filter
      (fun a => isSectionMarker (a ++ "\n")) = [] := by
    rw [filter_map_comm]
    rw [filter_false_of _ _ (fun a _ => b2 (pyFormat a))]
    rfl
  have hmeas : (meas.map (fun name => "! name " ++ pyFormat name)).filter
      (fun a => isSectionMarker (a ++ "\n")) = [] := by
    rw [filter_map_comm]
    rw [filter_false_of _ _ (fun a _ => b2 (pyFormat a))]
    rfl
  unfold headerCore
  cases on1 <;> cases si <;> cases tn <;> cases com <;>
    simp [List.filter_append, List.filter_cons, b1, b2, b3, b4, b5, hobs, hmeas] <;>
    decide

/-- `digitChar` always yields a decimal digit character. -/
lemma digitChar_isDigit (d : Nat) : (digitChar d).isDigit = true := by
  have h : d % 10 < 10 := Nat.mod_lt _ (by norm_num)
  unfold digitChar
  interval_cases h2 : d % 10 <;> decide

lemma isDigit_ne_dot (c : Char) (h : c.isDigit = true) : c ≠ '.' := by
  intro he
  subst he
  exact absurd h (by decide)

lemma natToDecAux_digits (fuel m : Nat) :
    ∀ c ∈ natToDecAux fuel m, c.isDigit = true := by
  induction fuel generalizing m with
  | zero => intro c hc; simp [natToDecAux] at hc
  | succ fuel ih =>
    intro c hc
    rw [natToDecAux] at hc
    split at hc
    · simp only [List.mem_singleton] at hc
      subst hc
      exact digitChar_isDigit _
    · rcases List.mem_append.mp hc with h1 | h1
      · exact ih (m / 10) c h1
      · simp only [List.mem_singleton] at h1
        subst h1
        exact digitChar_isDigit _

lemma natToDec_digits (m : Nat) : ∀ c ∈ natToDec m, c.isDigit = true :=
  natToDecAux_digits (m + 1) m

lemma fracDigits_length (k m : Nat) : (fracDigits k m).length = k := by
  induction k generalizing m with
  | zero => rfl
  | succ k ih => simp [fracDigits, ih]

lemma fracDigits_digits (k m : Nat) : ∀ c ∈ fracDigits k m, c.isDigit = true := by
  induction k generalizing m with
  | zero => intro c hc; simp [fracDigits] at hc
  | succ k ih =>
    intro c hc
    rw [fracDigits] at hc
    rcases List.mem_append.mp hc with h1 | h1
    · exact ih (m / 10) c h1
    · simp only [List.mem_singleton] at h1
      subst h1
      exact digitChar_isDigit _

/-- Characters of a string strictly after its first `.` character. -/
def afterDot : List Char → Option (List Char)
  | [] => none
  | c :: cs => if c = '.' then some cs else afterDot cs

lemma afterDot_append (a b : List Char) (h : ∀ c ∈ a, c ≠ '.') :
    afterDot (a ++ '.' :: b) = some b := by
  induction a with
  | nil => simp [afterDot]
  | cons c cs ih =>
    simp only [List.cons_append, afterDot]
    rw [if_neg (h c (by simp))]
    exact ih (fun x hx => h x (by simp [hx]))

/-- `fixed16` always prints exactly 16 digits after the decimal point. -/
lemma fixed16_afterDot (q : ℚ) :
    ∃ ds, afterDot (fixed16 q).data = some ds ∧ ds.length = 16 ∧
      ∀ c ∈ ds, c.isDigit = true := by
  refine ⟨fracDigits 16 ((round (q * 10 ^ 16)).natAbs % 10 ^ 16), ?_,
    fracDigits_length _ _, fracDigits_digits _ _⟩
  unfold fixed16
  set n : ℤ := round (q * 10 ^ 16) with hn
  have hdata :
      ((if n < 0 then "-" else "") ++ String.mk (natToDec (n.natAbs / 10 ^ 16)) ++ "." ++
        String.mk (fracDigits 16 (n.natAbs % 10 ^ 16))).data =
      ((if n < 0 then "-" else "").data ++ natToDec (n.natAbs / 10 ^ 16)) ++
        '.' :: fracDigits 16 (n.natAbs % 10 ^ 16) := by
    rw [strData_append, strData_append, strData_append]
    simp [List.append_assoc]
  rw [hdata]
  apply afterDot_append
  intro c hc
  rcases List.mem_append.mp hc with h1 | h1
  · by_cases hneg : n < 0
    · rw [if_pos hneg] at h1
      simp only [show ("-" : String).data = ['-'] from rfl, List.mem_singleton] at h1
      subst h1
      decide
    · rw [if_neg hneg] at h1
      simp only [show ("" : String).data = [] from rfl] at h1
      exact absurd h1 (List.not_mem_nil c)
  · exact isDigit_ne_dot c (natToDec_digits _ c h1)

lemma pad2_digits (n : Nat) : ∀ c ∈ pad2 n, c.isDigit = true := by
  intro c hc
  unfold pad2 at hc
  split at hc
  · simp only [List.mem_cons, List.not_mem_nil, or_false] at hc
    rcases hc with rfl | rfl
    · decide
    · exact digitChar_isDigit n
  · exact natToDec_digits _ c hc

/-- Structural decomposition of the modelled astropy ISO string: date,
`T`, colon-separated two-digit-padded time fields, a dot, exactly `prec`
fractional digits. -/
lemma astropyUtcIsot_format (prec : Nat) (hprec : 0 < prec) (m : ℚ) :
    ∃ (y : ℤ) (mo d hh mi ss : Nat) (frac : List Char),
      astropyUtcIsot prec m ++ "Z" =
        pad4year y ++ "-" ++ String.mk (pad2 mo) ++ "-" ++ String.mk (pad2 d) ++ "T" ++
          String.mk (pad2 hh) ++ ":" ++ String.mk (pad2 mi) ++ ":" ++
          String.mk (pad2 ss) ++ "." ++ String.mk frac ++ "Z" ∧
      frac.length = prec ∧ (∀ c ∈ frac, c.isDigit = true) ∧
      (∀ c ∈ pad2 hh, c.isDigit = true) ∧ (∀ c ∈ pad2 mi, c.isDigit = true) ∧
      (∀ c ∈ pad2 ss, c.isDigit = true) := by
  have hne : ¬ prec = 0 := by omega
  refine ⟨(civilFromMJD ⌊m⌋).1, (civilFromMJD ⌊m⌋).2.1, (civilFromMJD ⌊m⌋).2.2,
    (⌊(m - ((⌊m⌋ : ℤ) : ℚ)) * (86400 * 10 ^ prec)⌋.toNat / 10 ^ prec) / 3600,
    (⌊(m - ((⌊m⌋ : ℤ) : ℚ)) * (86400 * 10 ^ prec)⌋.toNat / 10 ^ prec) / 60 % 60,
    (⌊(m - ((⌊m⌋ : ℤ) : ℚ)) * (86400 * 10 ^ prec)⌋.toNat / 10 ^ prec) % 60,
    fracDigits prec (⌊(m - ((⌊m⌋ : ℤ) : ℚ)) * (86400 * 10 ^ prec)⌋.toNat % 10 ^ prec),
    ?_, fracDigits_length _ _, fracDigits_digits _ _,
    pad2_digits _, pad2_digits _, pad2_digits _⟩
  apply strExt
  simp [astropyUtcIsot, hne, strData_append, List.append_assoc]

/-! ### Claim theorems -/

/-- Claim C2 (code bug at ades.py line 81): the Header Builder ignores the
supplied `telescope_aperture` argument.  At the failing input
`telescope_aperture = "1.2"` the emitted telescope section still contains
the hard-coded line `! aperture 8.4` and no `! aperture 1.2` line, so the
aperture key line is NOT the supplied value as the spec requires. -/
theorem aperture_hardcoded :
    ∃ lines,
      writeADESHeader "X05" "J. Smith" "Reflector" "1.2" "CCD"
          (.list [.str "J. Smith"]) (.list [.str "J. Smith"])
          none none none none = .ok lines ∧
      "! aperture 8.4\n" ∈ lines ∧ "! aperture 1.2\n" ∉ lines := by
  refine ⟨_, writeADESHeader_ok "X05" "J. Smith" "Reflector" "1.2" "CCD"
    [.str "J. Smith"] [.str "J. Smith"] none none none none, ?_, ?_⟩ <;> decide

/-- Claim C3 (code bug at ades.py line 83): the Header Builder ignores the
supplied `telescope_detector` argument.  At the failing input
`telescope_detector = "CMOS"` the emitted telescope section still contains
the hard-coded line `! detector CCD` and no `! detector CMOS` line, so the
detector key line is NOT the supplied identifier as the spec requires. -/
theorem detector_hardcoded :
    ∃ lines,
      writeADESHeader "X05" "J. Smith" "Reflector" "8.4" "CMOS"
          (.list [.str "J. Smith"]) (.list [.str "J. Smith"])
          none none none none = .ok lines ∧
      "! detector CCD\n" ∈ lines ∧ "! detector CMOS\n" ∉ lines := by
  refine ⟨_, writeADESHeader_ok "X05" "J. Smith" "Reflector" "8.4" "CMOS"
    [.str "J. Smith"] [.str "J. Smith"] none none none none, ?_, ?_⟩ <;> decide

/-- Claim C4: for every valid metadata set (observers and measurers given
as lists) the Header Builder succeeds and its output list of lines begins
with `# version=2017\n`; among the lines, the section-marker lines are
exactly one `# observatory`, `# submitter`, `# telescope`, `# observers`,
`# measurers`, in that order, followed by one `# comment` marker iff a
comment was supplied; and every line ends with a newline terminator. -/
theorem headerBuilder_structure (oc sub td ta tdet : String)
    (obs meas : List PyScalar) (on1 si tn com : Option String) :
    ∃ lines,
      writeADESHeader oc sub td ta tdet (.list obs) (.list meas)
          on1 si tn com = .ok lines ∧
      lines.head? = some "# version=2017\n" ∧
      lines.filter isSectionMarker =
        ["# observatory\n", "# submitter\n", "# telescope\n",
         "# observers\n", "# measurers\n"] ++
          (match com with | some _ => ["# comment\n"] | none => []) ∧
      ∀ l ∈ lines, ∃ s, l = s ++ "\n" := by
  refine ⟨_, writeADESHeader_ok oc sub td ta tdet obs meas on1 si tn com, ?_, ?_, ?_⟩
  · obtain ⟨t, ht⟩ : ∃ t, headerCore oc sub td obs meas on1 si tn com =
        "# version=2017" :: t := ⟨_, rfl⟩
    rw [ht]
    simp only [List.map_cons, List.head?_cons]
    decide
  · rw [filter_map_comm, filter_headerCore]
    cases com <;> simp only [List.map_cons, List.map_append, List.map_nil] <;> decide
  · intro l hl
    rcases List.mem_map.mp hl with ⟨a, _, rfl⟩
    exact ⟨a, rfl⟩

/-- The property the original claim C5 asserts of the observers/measurers
arguments: being an ordered sequence (list) of strings. -/
def isStrSeq : PyVal → Prop
  | .list xs => ∀ x ∈ xs, ∃ s, x = PyScalar.str s
  | .scalar _ => False

/-- `true` iff the Header Builder returned successfully. -/
def hdrOk : Except ADESError (List String) → Bool
  | .ok _ => true
  | .error _ => false

/-- Counterexample to claim C5 as stated: `observers = [42]` (a Python
list containing an integer) is not a sequence of strings, yet the Header
Builder does not raise — the source checks only `type(observers) is list`
and never inspects the elements. -/
theorem observers_typecheck_counterexample :
    ¬ isStrSeq (PyVal.list [PyScalar.int 42]) ∧
      hdrOk (writeADESHeader "X05" "J. Smith" "Reflector" "8.4" "CCD"
        (PyVal.list [PyScalar.int 42]) (PyVal.list [PyScalar.str "J. Smith"])
        none none none none) = true := by
  constructor
  · intro h
    rcases h (PyScalar.int 42) (by simp) with ⟨s, hs⟩
    simp at hs
  · rfl

/-- Claim C5 as amended: the Header Builder raises InvalidInput if and
only if the observers argument or the measurers argument is not a Python
list (so a single string such as "J. Smith" raises); element types are
not checked, so a list of non-strings is accepted.  The error result
carries no output lines. -/
theorem invalidInput_iff_not_list (oc sub td ta tdet : String)
    (observers measurers : PyVal) (on1 si tn com : Option String) :
    (∃ m, writeADESHeader oc sub td ta tdet observers measurers on1 si tn com =
        .error (ADESError.invalidInput m)) ↔
      (observers.isPyList = false ∨ measurers.isPyList = false) := by
  cases observers with
  | scalar v => simp [writeADESHeader, PyVal.isPyList]
  | list obs =>
    cases measurers with
    | scalar v => simp [writeADESHeader, PyVal.isPyList]
    | list meas =>
      rw [writeADESHeader_ok]
      simp [PyVal.isPyList]

/-- Claim C9: the Header Builder accepts an empty observers and/or
measurers list without error: the corresponding section marker line is
emitted followed by zero name lines (for empty observers, `# observers`
is immediately followed by `# measurers`; for empty measurers,
`# measurers` is immediately followed by the comment section or the end
of the header). -/
theorem empty_observer_lists_accepted :
    (∀ (oc sub td ta tdet : String) (meas : List PyScalar)
        (on1 si tn com : Option String),
      ∃ pre, writeADESHeader oc sub td ta tdet (.list []) (.list meas)
          on1 si tn com =
        .ok (pre ++ ["# observers\n", "# measurers\n"] ++
          meas.map (fun n => ("! name " ++ pyFormat n) ++ "\n") ++
          (match com with
           | some c => ["# comment\n", ("! line " ++ c) ++ "\n"]
           | none => []))) ∧
    (∀ (oc sub td ta tdet : String) (obs : List PyScalar)
        (on1 si tn com : Option String),
      ∃ pre, writeADESHeader oc sub td ta tdet (.list obs) (.list [])
          on1 si tn com =
        .ok (pre ++ ["# measurers\n"] ++
          (match com with
           | some c => ["# comment\n", ("! line " ++ c) ++ "\n"]
           | none => []))) := by
  have e1 : "# observers" ++ "\n" = "# observers\n" := by decide
  have e2 : "# measurers" ++ "\n" = "# measurers\n" := by decide
  have e3 : "# comment" ++ "\n" = "# comment\n" := by decide
  constructor
  · intro oc sub td ta tdet meas on1 si tn com
    refine ⟨(["# version=2017", "# observatory", "! mpcCode " ++ oc] ++
      (match on1 with | some n => ["! name " ++ n] | none => []) ++
      ["# submitter", "! name " ++ sub] ++
      (match si with | some i => ["! institution " ++ i] | none => []) ++
      ["# telescope"] ++
      (match tn with | some n => ["! name " ++ n] | none => []) ++
      ["! aperture 8.4", "! design " ++ td, "! detector CCD"]).map
        (fun i => i ++ "\n"), ?_⟩
    rw [writeADESHeader_ok]
    cases com <;> cases on1 <;> cases si <;> cases tn <;>
      simp [headerCore, e1, e2, e3, List.map_append, List.map_map,
        Function.comp, List.append_assoc]
  · intro oc sub td ta tdet obs on1 si tn com
    refine ⟨(["# version=2017", "# observatory", "! mpcCode " ++ oc] ++
      (match on1 with | some n => ["! name " ++ n] | none => []) ++
      ["# submitter", "! name " ++ sub] ++
      (match si with | some i => ["! institution " ++ i] | none => []) ++
      ["# telescope"] ++
      (match tn with | some n => ["! name " ++ n] | none => []) ++
      ["! aperture 8.4", "! design " ++ td, "! detector CCD", "# observers"] ++
      obs.map (fun n => "! name " ++ pyFormat n)).map
        (fun i => i ++ "\n"), ?_⟩
    rw [writeADESHeader_ok]
    cases com <;> cases on1 <;> cases si <;> cases tn <;>
      simp [headerCore, e1, e2, e3, List.map_append, List.map_map,
        Function.comp, List.append_assoc]

/-- Claim C1: for every observation table in which none of `permID`,
`provID`, `trkSub` is present (and valid list metadata), the Table
Exporter fails with the MissingRequiredField error and performs no file
operation at all: the output file is neither created nor modified (the
raise at ades.py line 195 precedes the `open` at line 227). -/
theorem missingId_aborts_export (utc_of : String → ℚ → ℚ) (pyStr : ℚ → String)
    (o : Observations) (file_out mjd_scale : String) (prec : Nat)
    (oc sub td ta tdet : String) (obs meas : List PyScalar) (com : Option String)
    (h1 : o.permID = none) (h2 : o.provID = none) (h3 : o.trkSub = none) :
    writeToADES utc_of pyStr o file_out mjd_scale prec oc sub td ta tdet
        (.list obs) (.list meas) com =
      ([], .error (ADESError.missingRequiredField
        "At least one of permID, provID, or trkSub should\nbe present in observations.")) := by
  simp [writeToADES, writeADESHeader_ok, idPresent, h1, h2, h3]

/-- Claim C6: for every observation table the Table Exporter accepts, the
column-name line of the output is the `|`-join of the assembled column
names, the data body renders those same columns, and the assembled
columns appear in exactly the fixed order: present identification columns
(permID, provID, trkSub), obsTime, ra, dec, rmsRA?, rmsDec?, mag,
rmsMag?, band, stn, mode, astCat, remarks? — an absent optional column is
omitted entirely. -/
theorem exporter_column_order (utc_of : String → ℚ → ℚ) (pyStr : ℚ → String)
    (o : Observations)
    (file_out mjd_scale : String) (prec : Nat) (oc sub td ta tdet : String)
    (obs meas : List PyScalar) (com : Option String)
    (hid : idPresent o = true) :
    (∃ hdr, writeToADES utc_of pyStr o file_out mjd_scale prec oc sub td ta tdet
        (.list obs) (.list meas) com =
      ([.create file_out (hdr ++
          (String.intercalate "|"
            ((adesColumns utc_of o mjd_scale prec).map Prod.fst) ++ "\n")),
        .append file_out (csvString pyStr (adesColumns utc_of o mjd_scale prec))],
       .ok ())) ∧
    (adesColumns utc_of o mjd_scale prec).map Prod.fst =
      (if o.permID.isSome then ["permID"] else []) ++
      (if o.provID.isSome then ["provID"] else []) ++
      (if o.trkSub.isSome then ["trkSub"] else []) ++
      ["obsTime", "ra", "dec"] ++
      (if o.rmsRA.isSome then ["rmsRA"] else []) ++
      (if o.rmsDec.isSome then ["rmsDec"] else []) ++
      ["mag"] ++
      (if o.rmsMag.isSome then ["rmsMag"] else []) ++
      ["band", "stn", "mode", "astCat"] ++
      (if o.remarks.isSome then ["remarks"] else []) := by
  constructor
  · exact ⟨String.join ((headerCore oc sub td obs meas none none none com).map
      (fun i => i ++ "\n")), by simp [writeToADES, writeADESHeader_ok, hid]⟩
  · rcases o with ⟨pid, prid, tsub, mjd1, ra1, dec1, rra, rdec, mag1, rmag,
      band1, stn1, mode1, ac1, rem1⟩
    cases pid <;> cases prid <;> cases tsub <;> cases rra <;> cases rdec <;>
      cases rmag <;> cases rem1 <;> simp [adesColumns]

/-- Claim C7 as amended: in every data row written by the Table Exporter
(the CSV body is built row by row from `renderCell`), a missing/undefined
cell is rendered as a single space character; a floating-point value is
rendered in fixed notation with exactly 16 digits after the decimal point
when its column is float-dtype and contains no missing value, while in a
column that contains a missing value the nan-replacement has made the
column object dtype, `float_format` is not applied, and the float is
rendered via Python `str()` (the `pyStr` model) instead. -/
theorem exporter_cell_rendering (utc_of : String → ℚ → ℚ) (pyStr : ℚ → String)
    (o : Observations)
    (file_out mjd_scale : String) (prec : Nat) (oc sub td ta tdet : String)
    (obs meas : List PyScalar) (com : Option String)
    (hid : idPresent o = true) :
    (∃ hdr, writeToADES utc_of pyStr o file_out mjd_scale prec oc sub td ta tdet
        (.list obs) (.list meas) com =
      ([.create file_out hdr,
        .append file_out (String.join
          ((List.range (nRows (adesColumns utc_of o mjd_scale prec))).map
            (fun i => String.intercalate "|"
              ((adesColumns utc_of o mjd_scale prec).map
                (fun c => renderCell pyStr c.2 (cellAt c.2 i))) ++ "\n")))],
       .ok ())) ∧
    (∀ col : List Cell, renderCell pyStr col Cell.nan = " ") ∧
    (∀ (col : List Cell) (q : ℚ), colIsFloat col = true → colHasNan col = false →
      ∃ ds, afterDot (renderCell pyStr col (Cell.float q)).data = some ds ∧
        ds.length = 16 ∧ ∀ c ∈ ds, c.isDigit = true) ∧
    (∀ (col : List Cell) (q : ℚ), colHasNan col = true →
      renderCell pyStr col (Cell.float q) = csvQuote (pyStr q)) := by
  refine ⟨⟨String.join ((headerCore oc sub td obs meas none none none com).map
        (fun i => i ++ "\n")) ++
      (String.intercalate "|"
        ((adesColumns utc_of o mjd_scale prec).map Prod.fst) ++ "\n"), ?_⟩,
    ?_, ?_, ?_⟩
  · simp only [writeToADES, writeADESHeader_ok, hid, if_true, csvString]
    rfl
  · intro col
    by_cases h : (colIsFloat col && !colHasNan col) = true <;> simp [renderCell, h]
  · intro col q h1 h2
    have hb : (colIsFloat col && !colHasNan col) = true := by simp [h1, h2]
    simp only [renderCell, hb, if_true]
    exact fixed16_afterDot q
  · intro col q h
    have hb : (colIsFloat col && !colHasNan col) = false := by simp [h]
    simp [renderCell, hb]

/-- Claim C8: the Table Exporter converts each `mjd` value, interpreted
in the time scale `mjd_scale` (passed to the scale conversion `utc_of`),
into the `obsTime` column; each entry is the modelled astropy UTC ISO
string with a literal `Z` suffix appended, and that string is an ISO-8601
extended timestamp whose fractional-seconds part has exactly
`seconds_precision` digits followed immediately by the final `Z` (no
numeric UTC offset). -/
theorem exporter_obsTime_format (utc_of : String → ℚ → ℚ) (pyStr : ℚ → String)
    (o : Observations)
    (file_out mjd_scale : String) (prec : Nat) (oc sub td ta tdet : String)
    (obs meas : List PyScalar) (com : Option String)
    (hid : idPresent o = true) (hprec : 0 < prec) :
    (∃ hdr, writeToADES utc_of pyStr o file_out mjd_scale prec oc sub td ta tdet
        (.list obs) (.list meas) com =
      ([.create file_out hdr,
        .append file_out (csvString pyStr (adesColumns utc_of o mjd_scale prec))],
       .ok ())) ∧
    ("obsTime", o.mjd.map (fun m =>
        Cell.str (astropyUtcIsot prec (utc_of mjd_scale m) ++ "Z"))) ∈
      adesColumns utc_of o mjd_scale prec ∧
    (∀ m : ℚ, ∃ (y : ℤ) (mo d hh mi ss : Nat) (frac : List Char),
      astropyUtcIsot prec (utc_of mjd_scale m) ++ "Z" =
        pad4year y ++ "-" ++ String.mk (pad2 mo) ++ "-" ++ String.mk (pad2 d) ++
          "T" ++ String.mk (pad2 hh) ++ ":" ++ String.mk (pad2 mi) ++ ":" ++
          String.mk (pad2 ss) ++ "." ++ String.mk frac ++ "Z" ∧
      frac.length = prec ∧ (∀ c ∈ frac, c.isDigit = true)) := by
  refine ⟨⟨String.join ((headerCore oc sub td obs meas none none none com).map
        (fun i => i ++ "\n")) ++
      (String.intercalate "|"
        ((adesColumns utc_of o mjd_scale prec).map Prod.fst) ++ "\n"), ?_⟩,
    ?_, ?_⟩
  · simp [writeToADES, writeADESHeader_ok, hid]
  · simp [adesColumns]
  · intro m
    rcases astropyUtcIsot_format prec hprec (utc_of mjd_scale m) with
      ⟨y, mo, d, hh, mi, ss, frac, heq, hlen, hdig, _, _, _⟩
    exact ⟨y, mo, d, hh, mi, ss, frac, heq, hlen, hdig⟩

/-- Claim C10: the Table Exporter forwards none of `observatory_name`,
`submitter_institution`, `telescope_name` to the Header Builder (ades.py
lines 165-174 pass only the seven required parameters plus the comment),
so the written header is exactly the list below: the observatory section
holds only the `mpcCode` line (no observatory `! name` line), there is no
`! institution` line, and the telescope section holds only aperture,
design and detector (no telescope `! name` line). -/
theorem exporter_omits_optional_header_lines (utc_of : String → ℚ → ℚ)
    (pyStr : ℚ → String)
    (o : Observations) (file_out mjd_scale : String) (prec : Nat)
    (oc sub td ta tdet : String) (obs meas : List PyScalar) (com : Option String)
    (hid : idPresent o = true) :
    writeToADES utc_of pyStr o file_out mjd_scale prec oc sub td ta tdet
        (.list obs) (.list meas) com =
      ([.create file_out (String.join
          ((["# version=2017", "# observatory", "! mpcCode " ++ oc,
             "# submitter", "! name " ++ sub, "# telescope",
             "! aperture 8.4", "! design " ++ td, "! detector CCD",
             "# observers"] ++
            obs.map (fun n => "! name " ++ pyFormat n) ++ ["# measurers"] ++
            meas.map (fun n => "! name " ++ pyFormat n) ++
            (match com with
             | some c => ["# comment", "! line " ++ c]
             | none => [])).map (fun i => i ++ "\n")) ++
          (String.intercalate "|"
            ((adesColumns utc_of o mjd_scale prec).map Prod.fst) ++ "\n")),
        .append file_out (csvString pyStr (adesColumns utc_of o mjd_scale prec))],
       .ok ()) := by
  simp [writeToADES, writeADESHeader_ok, hid, headerCore]

/-! ### Concrete inputs for the witnesses -/

/-- Identity scale conversion (the `utc` scale maps to itself). -/
def tmId : String → ℚ → ℚ := fun _ m => m

/-- A one-row observation table carrying only the `trkSub` identifier. -/
def obsW : Observations :=
  { permID := none, provID := none, trkSub := some [Cell.str "A1B2C3"],
    mjd := [59000 + 1/2], ra := [Cell.float 10], dec := [Cell.float (-5)],
    rmsRA := none, rmsDec := none, mag := [Cell.float (201/10)],
    rmsMag := none, band := [Cell.str "g"], stn := [Cell.str "F51"],
    mode := [Cell.str "CCD"], astCat := [Cell.str "Gaia2"], remarks := none }

/-- An observation table with none of the identification columns. -/
def obsNoId : Observations :=
  { permID := none, provID := none, trkSub := none, mjd := [], ra := [],
    dec := [], rmsRA := none, rmsDec := none, mag := [], rmsMag := none,
    band := [], stn := [], mode := [], astCat := [], remarks := none }

/-- Witness for claim C1 at the table `obsNoId`. -/
theorem missingId_aborts_export_witness :
    (obsNoId.permID = none ∧ obsNoId.provID = none ∧ obsNoId.trkSub = none) ∧
    writeToADES tmId pyFloatStr obsNoId "out.psv" "utc" 9 "X05" "J. Smith"
        "Reflector"
        "8.4" "CCD" (.list [.str "J. Smith"]) (.list [.str "J. Smith"]) none =
      ([], .error (ADESError.missingRequiredField
        "At least one of permID, provID, or trkSub should\nbe present in observations.")) :=
  ⟨⟨rfl, rfl, rfl⟩,
    missingId_aborts_export tmId pyFloatStr obsNoId "out.psv" "utc" 9 "X05"
      "J. Smith" "Reflector" "8.4" "CCD" [.str "J. Smith"] [.str "J. Smith"] none
      rfl rfl rfl⟩

/-- Witness for claim C6 at the table `obsW`. -/
theorem exporter_column_order_witness :
    idPresent obsW = true ∧
    ((∃ hdr, writeToADES tmId pyFloatStr obsW "out.psv" "utc" 9 "X05" "J. Smith"
        "Reflector" "8.4" "CCD" (.list [.str "J. Smith"])
        (.list [.str "J. Smith"]) none =
      ([.create "out.psv" (hdr ++
          (String.intercalate "|"
            ((adesColumns tmId obsW "utc" 9).map Prod.fst) ++ "\n")),
        .append "out.psv" (csvString pyFloatStr (adesColumns tmId obsW "utc" 9))],
       .ok ())) ∧
    (adesColumns tmId obsW "utc" 9).map Prod.fst =
      (if obsW.permID.isSome then ["permID"] else []) ++
      (if obsW.provID.isSome then ["provID"] else []) ++
      (if obsW.trkSub.isSome then ["trkSub"] else []) ++
      ["obsTime", "ra", "dec"] ++
      (if obsW.rmsRA.isSome then ["rmsRA"] else []) ++
      (if obsW.rmsDec.isSome then ["rmsDec"] else []) ++
      ["mag"] ++
      (if obsW.rmsMag.isSome then ["rmsMag"] else []) ++
      ["band", "stn", "mode", "astCat"] ++
      (if obsW.remarks.isSome then ["remarks"] else [])) :=
  ⟨rfl, exporter_column_order tmId pyFloatStr obsW "out.psv" "utc" 9 "X05"
    "J. Smith" "Reflector" "8.4" "CCD" [.str "J. Smith"] [.str "J. Smith"]
    none rfl⟩

/-- Witness for the amended claim C7 at the table `obsW`. -/
theorem exporter_cell_rendering_witness :
    idPresent obsW = true ∧
    ((∃ hdr, writeToADES tmId pyFloatStr obsW "out.psv" "utc" 9 "X05" "J. Smith"
        "Reflector" "8.4" "CCD" (.list [.str "J. Smith"])
        (.list [.str "J. Smith"]) none =
      ([.create "out.psv" hdr,
        .append "out.psv" (String.join
          ((List.range (nRows (adesColumns tmId obsW "utc" 9))).map
            (fun i => String.intercalate "|"
              ((adesColumns tmId obsW "utc" 9).map
                (fun c => renderCell pyFloatStr c.2 (cellAt c.2 i))) ++ "\n")))],
       .ok ())) ∧
    (∀ col : List Cell, renderCell pyFloatStr col Cell.nan = " ") ∧
    (∀ (col : List Cell) (q : ℚ), colIsFloat col = true → colHasNan col = false →
      ∃ ds, afterDot (renderCell pyFloatStr col (Cell.float q)).data = some ds ∧
        ds.length = 16 ∧ ∀ c ∈ ds, c.isDigit = true) ∧
    (∀ (col : List Cell) (q : ℚ), colHasNan col = true →
      renderCell pyFloatStr col (Cell.float q) = csvQuote (pyFloatStr q))) :=
  ⟨rfl, exporter_cell_rendering tmId pyFloatStr obsW "out.psv" "utc" 9 "X05"
    "J. Smith" "Reflector" "8.4" "CCD" [.str "J. Smith"] [.str "J. Smith"]
    none rfl⟩

/-- Witness for claim C8 at the table `obsW` with precision 9. -/
theorem exporter_obsTime_format_witness :
    (idPresent obsW = true ∧ 0 < 9) ∧
    ((∃ hdr, writeToADES tmId pyFloatStr obsW "out.psv" "utc" 9 "X05" "J. Smith"
        "Reflector" "8.4" "CCD" (.list [.str "J. Smith"])
        (.list [.str "J. Smith"]) none =
      ([.create "out.psv" hdr,
        .append "out.psv" (csvString pyFloatStr (adesColumns tmId obsW "utc" 9))],
       .ok ())) ∧
    ("obsTime", obsW.mjd.map (fun m =>
        Cell.str (astropyUtcIsot 9 (tmId "utc" m) ++ "Z"))) ∈
      adesColumns tmId obsW "utc" 9 ∧
    (∀ m : ℚ, ∃ (y : ℤ) (mo d hh mi ss : Nat) (frac : List Char),
      astropyUtcIsot 9 (tmId "utc" m) ++ "Z" =
        pad4year y ++ "-" ++ String.mk (pad2 mo) ++ "-" ++ String.mk (pad2 d) ++
          "T" ++ String.mk (pad2 hh) ++ ":" ++ String.mk (pad2 mi) ++ ":" ++
          String.mk (pad2 ss) ++ "." ++ String.mk frac ++ "Z" ∧
      frac.length = 9 ∧ (∀ c ∈ frac, c.isDigit = true))) :=
  ⟨⟨rfl, by decide⟩,
    exporter_obsTime_format tmId pyFloatStr obsW "out.psv" "utc" 9 "X05"
      "J. Smith" "Reflector" "8.4" "CCD" [.str "J. Smith"] [.str "J. Smith"] none
      rfl (by decide)⟩

/-- Witness for claim C10 at the table `obsW`. -/
theorem exporter_omits_optional_header_lines_witness :
    idPresent obsW = true ∧
    writeToADES tmId pyFloatStr obsW "out.psv" "utc" 9 "X05" "J. Smith"
        "Reflector"
        "8.4" "CCD" (.list [.str "J. Smith"]) (.list [.str "J. Smith"]) none =
      ([.create "out.psv" (String.join
          ((["# version=2017", "# observatory", "! mpcCode " ++ "X05",
             "# submitter", "! name " ++ "J. Smith", "# telescope",
             "! aperture 8.4", "! design " ++ "Reflector", "! detector CCD",
             "# observers"] ++
            [PyScalar.str "J. Smith"].map (fun n => "! name " ++ pyFormat n) ++
            ["# measurers"] ++
            [PyScalar.str "J. Smith"].map (fun n => "! name " ++ pyFormat n) ++
            (match (none : Option String) with
             | some c => ["# comment", "! line " ++ c]
             | none => [])).map (fun i => i ++ "\n")) ++
          (String.intercalate "|"
            ((adesColumns tmId obsW "utc" 9).map Prod.fst) ++ "\n")),
        .append "out.psv" (csvString pyFloatStr (adesColumns tmId obsW "utc" 9))],
       .ok ()) :=
  ⟨rfl, exporter_omits_optional_header_lines tmId pyFloatStr obsW "out.psv"
    "utc" 9 "X05" "J. Smith" "Reflector" "8.4" "CCD" [.str "J. Smith"]
    [.str "J. Smith"] none rfl⟩

/-- A two-row observation table whose float column `rmsMag` holds a float
in row 0 and a missing value in row 1. -/
def obsNan : Observations :=
  { permID := none, provID := none,
    trkSub := some [Cell.str "A1B2C3", Cell.str "B2"],
    mjd := [59000 + 1/2, 59000 + 1/2],
    ra := [Cell.float 10, Cell.float 10],
    dec := [Cell.float (-5), Cell.float (-5)],
    rmsRA := none, rmsDec := none,
    mag := [Cell.float (201/10), Cell.float (201/10)],
    rmsMag := some [Cell.float (1/2), Cell.nan],
    band := [Cell.str "g", Cell.str "g"], stn := [Cell.str "F51", Cell.str "F51"],
    mode := [Cell.str "CCD", Cell.str "CCD"],
    astCat := [Cell.str "Gaia2", Cell.str "Gaia2"], remarks := none }

set_option maxRecDepth 100000 in
/-- Counterexample to claim C7 as stated: at the concrete table `obsNan`,
the `rmsMag` column is floating-point but contains a missing value, so
after `replace(np.nan, " ")` it is object dtype and `to_csv` does not
apply `float_format` to it: the written body renders the row-0 `rmsMag`
value 0.5 as `0.5` — one digit after the decimal point, not 16 — while
every NaN-free float column (ra, dec, mag) does get the 16-digit form. -/
theorem sixteen_digit_counterexample :
    (∃ hdr, writeToADES tmId pyFloatStr obsNan "out.psv" "utc" 9 "X05"
        "J. Smith" "Reflector" "8.4" "CCD" (.list [.str "J. Smith"])
        (.list [.str "J. Smith"]) none =
      ([.create "out.psv" hdr,
        .append "out.psv" (csvString pyFloatStr (adesColumns tmId obsNan "utc" 9))],
       .ok ())) ∧
    csvString pyFloatStr (adesColumns tmId obsNan "utc" 9) =
      "A1B2C3|2020-05-31T12:00:00.000000000Z|10.0000000000000000|-5.0000000000000000|20.1000000000000000|0.5|g|F51|CCD|Gaia2\nB2|2020-05-31T12:00:00.000000000Z|10.0000000000000000|-5.0000000000000000|20.1000000000000000| |g|F51|CCD|Gaia2\n" ∧
    renderCell pyFloatStr [Cell.float (1/2), Cell.nan] (Cell.float (1/2)) =
      "0.5" ∧
    (∃ ds, afterDot ("0.5" : String).data = some ds ∧ ds.length = 1) := by
  refine ⟨⟨String.join ((headerCore "X05" "J. Smith" "Reflector"
      [.str "J. Smith"] [.str "J. Smith"] none none none none).map
        (fun i => i ++ "\n")) ++
      (String.intercalate "|"
        ((adesColumns tmId obsNan "utc" 9).map Prod.fst) ++ "\n"), ?_⟩,
    ?_, ?_, ⟨['5'], by decide, by decide⟩⟩
  · simp [writeToADES, writeADESHeader_ok,
      show idPresent obsNan = true from rfl]
  · with_unfolding_all decide
  · with_unfolding_all decide

end ThorADES
